import Mathlib

/-!
Verification of the RTR client unit (`src/units/rtr.rs` of the rtrtr
repository).

The file shallowly embeds the unit's data accumulation model
(`Target`, `TargetUpdate`, `push_vrp`, `into_update`,
`is_definitely_empty`) and the relevant pieces of the connection run
loop (`Tcp::run`, `Tcp::connect`, `Tcp::update`, `Tcp::retry_wait`).

Collaborators that are not part of the source under scrutiny (the
`payload` set/diff builders, the `comms` gate, the `rpki_rtr` protocol
library types) are modelled from the specification; each such
definition carries a doc comment beginning `Modelled from the spec:`.
-/

namespace Rtr

/-- Modelled from the spec: a payload record is an opaque value with
decidable equality ("route-origin records"); we represent records by
natural numbers. -/
abbrev Payload := Nat

/-- Modelled from the spec: the per-record action of the protocol
library, `Action ∈ \x7bAnnounce, Withdraw\x7d`. -/
inductive Action where
  | announce
  | withdraw
deriving DecidableEq, Repr

/-- Modelled from the spec: the corruption error surfaced by the
accumulator (`VrpError::Corrupt` of the protocol library). -/
inductive VrpError where
  | corrupt
deriving DecidableEq, Repr

/-- Modelled from the spec: the payload set-builder.  It builds a set of
records; `insert` fails on a duplicate, `remove` fails on an absent
record.  We represent the builder by the list of records it holds, in
insertion order. -/
structure SetBuilder where
  entries : List Payload
deriving DecidableEq, Repr

/-- Modelled from the spec: a fresh, empty set-builder
(`Default::default()`). -/
def SetBuilder.empty : SetBuilder := ⟨[]⟩

/-- Modelled from the spec: insert a record; fails with a corruption
error if the record is already present. -/
def SetBuilder.insert (s : SetBuilder) (p : Payload) :
    Except VrpError SetBuilder :=
  if p ∈ s.entries then .error .corrupt else .ok ⟨s.entries ++ [p]⟩

/-- Modelled from the spec: remove a record; fails with a corruption
error if the record is absent. -/
def SetBuilder.remove (s : SetBuilder) (p : Payload) :
    Except VrpError SetBuilder :=
  if p ∈ s.entries then .ok ⟨s.entries.erase p⟩ else .error .corrupt

/-- Modelled from the spec: finalize the set-builder into an immutable
payload set. -/
def SetBuilder.finalize (s : SetBuilder) : List Payload := s.entries

/-- Modelled from the spec: the diff-builder, an ordered sequence of
(record, action) pairs, appended to by `push`. -/
structure DiffBuilder where
  entries : List (Payload × Action)
deriving DecidableEq, Repr

/-- Modelled from the spec: a fresh, empty diff-builder
(`Default::default()`). -/
def DiffBuilder.empty : DiffBuilder := ⟨[]⟩

/-- Modelled from the spec: append one (record, action) entry to the
diff. -/
def DiffBuilder.push (d : DiffBuilder) (p : Payload) (a : Action) :
    Except VrpError DiffBuilder :=
  .ok ⟨d.entries ++ [(p, a)]⟩

/-- Modelled from the spec: whether the diff holds zero entries. -/
def DiffBuilder.is_empty (d : DiffBuilder) : Bool := d.entries.isEmpty

/-- Modelled from the spec: finalize the diff-builder into an immutable
diff. -/
def DiffBuilder.finalize (d : DiffBuilder) : List (Payload × Action) :=
  d.entries

/-- Modelled from the spec: the opaque protocol session state token
(`rpki_rtr::state::State`), carried across reconnects. -/
abbrev State := Nat

/-- Modelled from the spec: the unit's serial, a monotonically
increasing publish counter. -/
abbrev Serial := Nat

/-- Modelled from the spec: `Serial::add`, advancing the counter. -/
def Serial.add (s : Serial) (n : Nat) : Serial := s + n

/-- Translation of `struct Target` (rtr.rs lines 194-200): the current
payload set, the optional session state, and the unit name. -/
structure Target where
  current : List Payload
  state : Option State
  name : String
deriving DecidableEq, Repr

/-- Translation of `Target::new` (rtr.rs lines 203-209). -/
def Target.new (name : String) : Target :=
  { current := [], state := none, name := name }

/-- Translation of `struct TargetUpdate` (rtr.rs lines 244-252): the new
data set, and the diff; if the diff is `none` we are processing a reset
query. -/
structure TargetUpdate where
  set : SetBuilder
  diff : Option DiffBuilder
deriving DecidableEq, Repr

/-- Translation of `Target::start` (rtr.rs lines 215-229): a reset gets
an empty set-builder and no diff-builder; otherwise the set-builder is
seeded from the current set and the diff-builder starts empty. -/
def Target.start (t : Target) (reset : Bool) : TargetUpdate :=
  if reset then
    { set := SetBuilder.empty, diff := none }
  else
    { set := ⟨t.current⟩, diff := some DiffBuilder.empty }

/-- Outcome space for `Target::apply`: the Rust body either panics or
would return a result. -/
inductive ApplyResult where
  | panicked
  | returned (r : Except VrpError Unit)
deriving Repr

/-- Modelled from the spec: the protocol library's `Timing` value,
opaque to this unit. -/
abbrev Timing := Unit

/-- Translation of `Target::apply` (rtr.rs lines 231-239): the body is
`unreachable!()`, i.e. it panics on every input. -/
def Target.apply (_t : Target) (_update : TargetUpdate) (_reset : Bool)
    (_timing : Timing) : ApplyResult :=
  .panicked

/-- Translation of `TargetUpdate::is_definitely_empty` (rtr.rs lines
255-262). -/
def TargetUpdate.is_definitely_empty (tu : TargetUpdate) : Bool :=
  match tu.diff with
  | some diff => diff.is_empty
  | none => false

/-- Translation of `payload::Update` as used here: the published triple
of serial, finalized set and optional finalized diff. -/
structure Update where
  serial : Serial
  set : List Payload
  diff : Option (List (Payload × Action))
deriving DecidableEq, Repr

/-- Translation of `TargetUpdate::into_update` (rtr.rs lines 264-271). -/
def TargetUpdate.into_update (tu : TargetUpdate) (serial : Serial) :
    Update :=
  { serial := serial,
    set := tu.set.finalize,
    diff := tu.diff.map DiffBuilder.finalize }

/-- Translation of `VrpUpdate::push_vrp` for `TargetUpdate` (rtr.rs
lines 273-301).  The Rust method mutates `self` and returns a
`Result<(), VrpError>`; we return the post-state together with the
result.  On an error from a builder operation the builder is not
mutated, so the pre-state is returned unchanged. -/
def TargetUpdate.push_vrp (tu : TargetUpdate) (action : Action)
    (payload : Payload) : TargetUpdate × Except VrpError Unit :=
  match tu.diff with
  | some diff =>
    match action with
    | .announce =>
      match tu.set.insert payload with
      | .error e => (tu, .error e)
      | .ok s =>
        match diff.push payload action with
        | .error e => ({ set := s, diff := some diff }, .error e)
        | .ok d => ({ set := s, diff := some d }, .ok ())
    | .withdraw =>
      match tu.set.remove payload with
      | .error e => (tu, .error e)
      | .ok s =>
        match diff.push payload action with
        | .error e => ({ set := s, diff := some diff }, .error e)
        | .ok d => ({ set := s, diff := some d }, .ok ())
  | none =>
    if action = Action.withdraw then
      (tu, .error .corrupt)
    else
      match tu.set.insert payload with
      | .error e => (tu, .error e)
      | .ok s => ({ tu with set := s }, .ok ())

/-- Modelled from the spec: the gate status value delivered by a
non-terminating poll of the control channel (`comms::GateStatus`),
opaque to this unit. -/
abbrev GateStatus := Nat

/-- Modelled from the spec: the termination signal
(`comms::Terminated`). -/
inductive Terminated where
  | mk
deriving DecidableEq, Repr

/-- Translation of `struct Tcp` (rtr.rs lines 25-40): remote address,
retry interval in seconds, current gate status, current serial. -/
structure Tcp where
  remote : String
  retry : Nat
  status : GateStatus
  serial : Serial
deriving DecidableEq, Repr

/-- Translation of `Tcp::default_retry` (rtr.rs lines 43-45). -/
def Tcp.default_retry : Nat := 60

/-- Modelled from the spec: one resolution of the control-channel poll
(`gate.process()`): either a status value or the termination signal. -/
inductive GateEv where
  | status (s : GateStatus)
  | term
deriving DecidableEq, Repr

/-- Modelled from the spec: the possible kinds of io error returned by
the protocol engine's update call; the engine reports unrecoverable
protocol errors, clean peer disconnects and transport failures all
through this one error channel (`io::Error`). -/
inductive IoErrorKind where
  | cleanDisconnect
  | protocolError
  | transportError
deriving DecidableEq, Repr

/-- Translation of `rpki_rtr::client::Client` as used here: it owns the
target and the session state (`Client::new(sock, target, state)`,
`client.target()`, `client.into_target()`). -/
structure ClientM where
  target : Target
  state : Option State
deriving DecidableEq, Repr

/-- Helper: folding a list of observed gate status values into the
unit's `status` field, as the select loops do (`self.status = status`). -/
def Tcp.fold_status (tcp : Tcp) (statuses : List GateStatus) : Tcp :=
  statuses.foldl (fun acc s => { acc with status := s }) tcp

/-- Resolution of the connect select loop: after any number of status
events, the race ends with either gate termination, a socket error, or
a connected socket. -/
inductive ConnectResolve where
  | gateTerm
  | sockErr
  | sockOk
deriving DecidableEq, Repr

/-- Translation of `Tcp::connect` (rtr.rs lines 110-146).  The select
loop is represented by the list of status events won by the gate before
the terminal resolution: each status event records the status and keeps
the same pending connect future; gate termination and a socket error
both return `Err(target)`; a connected socket yields
`Client::new(sock, target, target.state)`. -/
def Tcp.connect (tcp : Tcp) (target : Target) :
    List GateStatus → ConnectResolve → Tcp × Except Target ClientM
  | [], .gateTerm => (tcp, .error target)
  | [], .sockErr => (tcp, .error target)
  | [], .sockOk =>
      (tcp, .ok { target := target, state := target.state })
  | s :: rest, final =>
      Tcp.connect { tcp with status := s } target rest final

/-- Resolution of the update select loop: after any number of status
events, the race ends with gate termination, an io error from the
protocol engine, or a completed accumulator. -/
inductive UpdateResolve where
  | gateTerm
  | updErr (k : IoErrorKind)
  | updOk (tu : TargetUpdate)
deriving DecidableEq, Repr

/-- Translation of `Tcp::update` (rtr.rs lines 148-170): statuses won
by the gate update `self.status` and resume the same pending update
future; gate termination returns `Err(Terminated)`; the update future's
own result is returned inside `Ok`. -/
def Tcp.update (tcp : Tcp) :
    List GateStatus → UpdateResolve →
    Tcp × Except Terminated (Except IoErrorKind TargetUpdate)
  | [], .gateTerm => (tcp, .error .mk)
  | [], .updErr k => (tcp, .ok (.error k))
  | [], .updOk tu => (tcp, .ok (.ok tu))
  | s :: rest, final =>
      Tcp.update { tcp with status := s } rest final

/-- Translation of the loop body of `Tcp::retry_wait` (rtr.rs lines
177-185) at a fixed deadline.  Time is modelled in seconds; each gate
event carries its arrival instant.  `timeout_at(end, gate.process())`
resolves to the gate event when it arrives before the deadline and to
the elapsed error (ending the wait successfully) otherwise; an
exhausted event list means the gate stays silent and the deadline is
reached. -/
def Tcp.retry_wait_go (deadline : Nat) (tcp : Tcp) :
    List (Nat × GateEv) → Except Terminated Tcp
  | [] => .ok tcp
  | (t, ev) :: rest =>
    if t < deadline then
      match ev with
      | .status s =>
          Tcp.retry_wait_go deadline { tcp with status := s } rest
      | .term => .error .mk
    else
      .ok tcp

/-- Translation of `Tcp::retry_wait` (rtr.rs lines 172-188): the
deadline is fixed on entry as `now + retry` and the loop polls the gate
against that deadline. -/
def Tcp.retry_wait (tcp : Tcp) (now : Nat)
    (events : List (Nat × GateEv)) : Except Terminated Tcp :=
  Tcp.retry_wait_go (now + tcp.retry) tcp events

/-- Translation of the publish block of `Tcp::run` (rtr.rs lines
96-101): if the finalized accumulator is not definitely empty, advance
the serial by one, finalize into an update carrying the new serial,
replace the current set with the update's set and publish; otherwise
discard the accumulator, leaving serial and current set unchanged. -/
def Tcp.publish_step (tcp : Tcp) (current : List Payload)
    (tu : TargetUpdate) : Tcp × List Payload × Option Update :=
  if !tu.is_definitely_empty then
    let serial := Serial.add tcp.serial 1
    let u := tu.into_update serial
    ({ tcp with serial := serial }, u.set, some u)
  else
    (tcp, current, none)

/-- Iterated publish block over a sequence of finalized accumulator
cycles, collecting the published updates in order. -/
def Tcp.run_cycles (tcp : Tcp) (current : List Payload) :
    List TargetUpdate → Tcp × List Payload × List Update
  | [] => (tcp, current, [])
  | tu :: rest =>
    let step := Tcp.publish_step tcp current tu
    let next := Tcp.run_cycles step.1 step.2.1 rest
    (next.1, next.2.1, step.2.2.toList ++ next.2.2)

/-- Outcome of the connect phase of one iteration of `Tcp::run`. -/
inductive ConnectPhase where
  | streaming (client : ClientM)
  | reconnect (target : Target)
deriving DecidableEq, Repr

/-- Translation of the connect handling of `Tcp::run` (rtr.rs lines
56-71): a successful connect proceeds to streaming (status healthy); a
failed connect — which includes gate termination observed during the
connect attempt — reports stalled status, runs `retry_wait`, and on a
successful wait loops back to another connect attempt with the
returned target. -/
def Tcp.connect_phase (tcp : Tcp) (target : Target)
    (statuses : List GateStatus) (final : ConnectResolve) (now : Nat)
    (waitEvents : List (Nat × GateEv)) :
    Except Terminated (Tcp × ConnectPhase) :=
  match Tcp.connect tcp target statuses final with
  | (tcp1, .ok client) => .ok (tcp1, .streaming client)
  | (tcp1, .error res) =>
    match Tcp.retry_wait tcp1 now waitEvents with
    | .error t => .error t
    | .ok tcp2 => .ok (tcp2, .reconnect res)

/-- Outcome of one pass through the inner streaming loop of `Tcp::run`. -/
inductive StreamStep where
  | continues (published : Option Update)
  | disconnect
  | terminated
deriving DecidableEq, Repr

/-- Translation of one pass through the inner streaming loop of
`Tcp::run` (rtr.rs lines 73-102): an update delivered by the protocol
engine is finalized by the publish block and streaming continues; an io
error from the engine breaks out of the loop towards the retry wait;
gate termination returns `Err(Terminated)`. -/
def Tcp.stream_step (tcp : Tcp) (client : ClientM)
    (statuses : List GateStatus) (final : UpdateResolve) :
    Tcp × ClientM × StreamStep :=
  match Tcp.update tcp statuses final with
  | (tcp1, .error _) => (tcp1, client, .terminated)
  | (tcp1, .ok (.error _)) => (tcp1, client, .disconnect)
  | (tcp1, .ok (.ok tu)) =>
    let step := Tcp.publish_step tcp1 client.target.current tu
    (step.1,
     { client with target := { client.target with current := step.2.1 } },
     .continues step.2.2)

/-- Claim C5: for every call to `Target::start`, when `reset` is true
the returned accumulator has an empty set-builder and no diff-builder;
when `reset` is false its set-builder holds a copy of the target's
current set and its diff-builder is present and empty. -/
theorem start_reset_and_incremental (t : Target) :
    (t.start true).set.entries = [] ∧
    (t.start true).diff = none ∧
    (t.start false).set.entries = t.current ∧
    (t.start false).diff = some DiffBuilder.empty :=
  ⟨rfl, rfl, rfl, rfl⟩

/-- Claim C10: the target's `apply` callback unconditionally panics
(`unreachable!()`): for every input it evaluates to the panic outcome,
never to a returned result. -/
theorem apply_always_panics (t : Target) (u : TargetUpdate) (r : Bool)
    (tim : Timing) :
    Target.apply t u r tim = ApplyResult.panicked :=
  rfl

/-- Claim C4: in reset mode (no diff-builder) an Announce inserts the
record into the set-builder, and a Withdraw returns a corruption error
leaving the set-builder unchanged; in an incremental cycle a Withdraw
of an absent record returns a corruption error leaving the accumulator
unchanged. -/
theorem reset_mode_record_events :
    (∀ (tu : TargetUpdate) (p : Payload), tu.diff = none →
      p ∉ tu.set.entries →
      tu.push_vrp .announce p
        = ({ tu with set := ⟨tu.set.entries ++ [p]⟩ }, .ok ())) ∧
    (∀ (tu : TargetUpdate) (p : Payload), tu.diff = none →
      tu.push_vrp .withdraw p = (tu, .error .corrupt)) ∧
    (∀ (tu : TargetUpdate) (d : DiffBuilder) (p : Payload),
      tu.diff = some d → p ∉ tu.set.entries →
      tu.push_vrp .withdraw p = (tu, .error .corrupt)) := by
  refine ⟨?_, ?_, ?_⟩
  · intro tu p hnone hp
    obtain ⟨s0, dopt⟩ := tu
    cases dopt with
    | none => simp_all [TargetUpdate.push_vrp, SetBuilder.insert]
    | some d => simp at hnone
  · intro tu p hnone
    obtain ⟨s0, dopt⟩ := tu
    cases dopt with
    | none => simp [TargetUpdate.push_vrp]
    | some d => simp at hnone
  · intro tu d p hsome hp
    obtain ⟨s0, dopt⟩ := tu
    cases dopt with
    | none => simp at hsome
    | some d0 => simp_all [TargetUpdate.push_vrp, SetBuilder.remove]

/-- Witness for C4 at concrete inputs: a reset accumulator accepts an
announce of a fresh record and rejects a withdraw; an incremental
accumulator rejects a withdraw of an absent record. -/
theorem reset_mode_record_events_witness :
    (TargetUpdate.mk ⟨[1]⟩ none).diff = none ∧
    (2 : Payload) ∉ (TargetUpdate.mk ⟨[1]⟩ none).set.entries ∧
    TargetUpdate.push_vrp ⟨⟨[1]⟩, none⟩ .announce 2
      = (⟨⟨[1, 2]⟩, none⟩, .ok ()) ∧
    TargetUpdate.push_vrp ⟨⟨[1]⟩, none⟩ .withdraw 1
      = (⟨⟨[1]⟩, none⟩, .error .corrupt) ∧
    TargetUpdate.push_vrp ⟨⟨[1]⟩, some ⟨[]⟩⟩ .withdraw 2
      = (⟨⟨[1]⟩, some ⟨[]⟩⟩, .error .corrupt) :=
  ⟨rfl, by decide,
    reset_mode_record_events.1 ⟨⟨[1]⟩, none⟩ 2 rfl (by decide),
    reset_mode_record_events.2.1 ⟨⟨[1]⟩, none⟩ 1 rfl,
    reset_mode_record_events.2.2 ⟨⟨[1]⟩, some ⟨[]⟩⟩ ⟨[]⟩ 2 rfl (by decide)⟩

/-- Claim C9: if `push_vrp` returns a corruption error during an
incremental cycle, the whole accumulator — in particular the
diff-builder — is left unchanged: no (action, record) entry is appended
for the failed event. -/
theorem incremental_error_no_mutation (tu : TargetUpdate)
    (d : DiffBuilder) (a : Action) (p : Payload) (e : VrpError)
    (hd : tu.diff = some d)
    (herr : (tu.push_vrp a p).2 = .error e) :
    (tu.push_vrp a p).1 = tu ∧ ((tu.push_vrp a p).1).diff = some d := by
  obtain ⟨s0, dopt⟩ := tu
  cases dopt with
  | none => simp at hd
  | some d0 =>
    have hdd : d0 = d := by simpa using hd
    subst hdd
    cases a with
    | announce =>
      by_cases hp : p ∈ s0.entries
      · constructor <;>
          simp [TargetUpdate.push_vrp, SetBuilder.insert, hp]
      · simp [TargetUpdate.push_vrp, SetBuilder.insert, hp,
          DiffBuilder.push] at herr
    | withdraw =>
      by_cases hp : p ∈ s0.entries
      · simp [TargetUpdate.push_vrp, SetBuilder.remove, hp,
          DiffBuilder.push] at herr
      · constructor <;>
          simp [TargetUpdate.push_vrp, SetBuilder.remove, hp]

/-- Witness for C9 at a concrete input: withdrawing an absent record in
an incremental cycle errors and leaves the accumulator unchanged. -/
theorem incremental_error_no_mutation_witness :
    (TargetUpdate.mk ⟨[1]⟩ (some ⟨[]⟩)).diff = some ⟨[]⟩ ∧
    (TargetUpdate.push_vrp ⟨⟨[1]⟩, some ⟨[]⟩⟩ .withdraw 2).2
      = .error .corrupt ∧
    ((TargetUpdate.push_vrp ⟨⟨[1]⟩, some ⟨[]⟩⟩ .withdraw 2).1
        = ⟨⟨[1]⟩, some ⟨[]⟩⟩ ∧
      ((TargetUpdate.push_vrp ⟨⟨[1]⟩, some ⟨[]⟩⟩ .withdraw 2).1).diff
        = some ⟨[]⟩) :=
  ⟨rfl, rfl,
    incremental_error_no_mutation ⟨⟨[1]⟩, some ⟨[]⟩⟩ ⟨[]⟩ .withdraw 2
      .corrupt rfl rfl⟩

/-- Helper: a non-empty accumulator is published with the serial
advanced by one. -/
lemma publish_step_not_empty (tcp : Tcp) (current : List Payload)
    (tu : TargetUpdate) (h : tu.is_definitely_empty = false) :
    Tcp.publish_step tcp current tu
      = ({ tcp with serial := tcp.serial + 1 },
         (tu.into_update (tcp.serial + 1)).set,
         some (tu.into_update (tcp.serial + 1))) := by
  simp [Tcp.publish_step, h, Serial.add]

/-- Helper: a definitely empty accumulator is discarded; serial and
current set are unchanged and nothing is published. -/
lemma publish_step_empty (tcp : Tcp) (current : List Payload)
    (tu : TargetUpdate) (h : tu.is_definitely_empty = true) :
    Tcp.publish_step tcp current tu = (tcp, current, none) := by
  simp [Tcp.publish_step, h]

/-- Claim C2: `is_definitely_empty` is true iff a diff-builder is
present with zero entries; a reset-mode accumulator is never definitely
empty, so a reset cycle is always published with `diff = none` even
with zero records, while an incremental cycle whose diff is empty is
never published. -/
theorem definitely_empty_iff_and_publish :
    (∀ tu : TargetUpdate,
      tu.is_definitely_empty = true ↔
        ∃ d : DiffBuilder, tu.diff = some d ∧ d.entries = []) ∧
    (∀ (tcp : Tcp) (current : List Payload) (tu : TargetUpdate),
      tu.diff = none →
      tu.is_definitely_empty = false ∧
      (Tcp.publish_step tcp current tu).2.2
        = some (tu.into_update (tcp.serial + 1)) ∧
      (tu.into_update (tcp.serial + 1)).diff = none) ∧
    (∀ (tcp : Tcp) (current : List Payload) (tu : TargetUpdate)
        (d : DiffBuilder),
      tu.diff = some d → d.entries = [] →
      (Tcp.publish_step tcp current tu).2.2 = none) := by
  refine ⟨?_, ?_, ?_⟩
  · intro tu
    obtain ⟨s0, dopt⟩ := tu
    cases dopt with
    | none => simp [TargetUpdate.is_definitely_empty]
    | some d =>
      simp [TargetUpdate.is_definitely_empty, DiffBuilder.is_empty,
        List.isEmpty_iff]
  · intro tcp current tu hnone
    have hne : tu.is_definitely_empty = false := by
      obtain ⟨s0, dopt⟩ := tu
      cases dopt with
      | none => rfl
      | some d => simp at hnone
    refine ⟨hne, ?_, ?_⟩
    · rw [publish_step_not_empty tcp current tu hne]
    · simp [TargetUpdate.into_update, hnone]
  · intro tcp current tu d hsome hd
    have he : tu.is_definitely_empty = true := by
      obtain ⟨s0, dopt⟩ := tu
      cases dopt with
      | none => simp at hsome
      | some d0 =>
        have : d0 = d := by simpa using hsome
        subst this
        simp [TargetUpdate.is_definitely_empty, DiffBuilder.is_empty, hd]
    rw [publish_step_empty tcp current tu he]

/-- Witness for C2 at concrete inputs: a reset accumulator with zero
records is published with no diff; an incremental accumulator with an
empty diff is not published. -/
theorem definitely_empty_iff_and_publish_witness :
    ((TargetUpdate.mk ⟨[]⟩ none).diff = none ∧
      (TargetUpdate.mk ⟨[]⟩ none).is_definitely_empty = false ∧
      (Tcp.publish_step ⟨"server", 60, 0, 0⟩ [] ⟨⟨[]⟩, none⟩).2.2
        = some (TargetUpdate.into_update ⟨⟨[]⟩, none⟩ 1) ∧
      (TargetUpdate.into_update ⟨⟨[]⟩, none⟩ 1).diff = none) ∧
    ((TargetUpdate.mk ⟨[3]⟩ (some ⟨[]⟩)).diff = some ⟨[]⟩ ∧
      (DiffBuilder.mk []).entries = [] ∧
      (Tcp.publish_step ⟨"server", 60, 0, 0⟩ [3] ⟨⟨[3]⟩, some ⟨[]⟩⟩).2.2
        = none) :=
  ⟨⟨rfl,
    definitely_empty_iff_and_publish.2.1 ⟨"server", 60, 0, 0⟩ []
      ⟨⟨[]⟩, none⟩ rfl⟩,
   ⟨rfl, rfl,
    definitely_empty_iff_and_publish.2.2 ⟨"server", 60, 0, 0⟩ [3]
      ⟨⟨[3]⟩, some ⟨[]⟩⟩ ⟨[]⟩ rfl rfl⟩⟩

/-- Helper: the number of cycles in a sequence that are published. -/
def pub_count (tus : List TargetUpdate) : Nat :=
  (tus.filter (fun tu => !tu.is_definitely_empty)).length

/-- Helper: over any sequence of finalized cycles, the serial advances
by the number of published cycles and the published updates carry the
consecutive serials starting one above the initial serial. -/
lemma run_cycles_serial (tus : List TargetUpdate) :
    ∀ (tcp : Tcp) (current : List Payload),
      (Tcp.run_cycles tcp current tus).1.serial
          = tcp.serial + pub_count tus ∧
      ((Tcp.run_cycles tcp current tus).2.2).map Update.serial
          = List.range' (tcp.serial + 1) (pub_count tus) := by
  induction tus with
  | nil =>
    intro tcp current
    simp [Tcp.run_cycles, pub_count, List.range']
  | cons tu rest ih =>
    intro tcp current
    cases h : tu.is_definitely_empty with
    | false =>
      have hstep := publish_step_not_empty tcp current tu h
      have hcount : pub_count (tu :: rest) = pub_count rest + 1 := by
        simp [pub_count, List.filter_cons, h]
      have hih := ih { tcp with serial := tcp.serial + 1 }
        (tu.into_update (tcp.serial + 1)).set
      constructor
      · simp only [Tcp.run_cycles, hstep]
        rw [hih.1, hcount]
        show tcp.serial + 1 + pub_count rest
            = tcp.serial + (pub_count rest + 1)
        rw [Nat.add_assoc, Nat.add_comm 1 (pub_count rest)]
      · have hlist : (Tcp.run_cycles tcp current (tu :: rest)).2.2
            = tu.into_update (tcp.serial + 1)
                :: (Tcp.run_cycles { tcp with serial := tcp.serial + 1 }
                    (tu.into_update (tcp.serial + 1)).set rest).2.2 := by
          simp [Tcp.run_cycles, hstep, Option.toList]
        rw [hlist, hcount, List.map_cons, hih.2]
        have hr : List.range' (tcp.serial + 1) (pub_count rest + 1)
            = (tcp.serial + 1)
                :: List.range' (tcp.serial + 1 + 1) (pub_count rest) := rfl
        rw [hr]
        rfl
    | true =>
      have hstep := publish_step_empty tcp current tu h
      have hcount : pub_count (tu :: rest) = pub_count rest := by
        simp [pub_count, List.filter_cons, h]
      have hih := ih tcp current
      constructor
      · simp only [Tcp.run_cycles, hstep]
        rw [hih.1, hcount]
      · simp only [Tcp.run_cycles, hstep, Option.toList, hcount,
          List.nil_append]
        exact hih.2

/-- Claim C3: the serial is advanced by exactly 1 immediately before
each published update (and the published update carries that serial),
is left unchanged by a definitely empty cycle, and across any run of
cycles the published updates carry consecutive serials starting one
above the initial serial, with the final serial equal to the initial
serial plus the number of published cycles. -/
theorem serial_monotonic :
    (∀ (tcp : Tcp) (current : List Payload) (tu : TargetUpdate),
      (tu.is_definitely_empty = false →
        (Tcp.publish_step tcp current tu).1.serial = tcp.serial + 1 ∧
        (Tcp.publish_step tcp current tu).2.2
          = some (tu.into_update (tcp.serial + 1)) ∧
        (tu.into_update (tcp.serial + 1)).serial = tcp.serial + 1) ∧
      (tu.is_definitely_empty = true →
        (Tcp.publish_step tcp current tu).1.serial = tcp.serial ∧
        (Tcp.publish_step tcp current tu).2.2 = none)) ∧
    (∀ (tcp : Tcp) (current : List Payload) (tus : List TargetUpdate),
      (Tcp.run_cycles tcp current tus).1.serial
          = tcp.serial + pub_count tus ∧
      ((Tcp.run_cycles tcp current tus).2.2).map Update.serial
          = List.range' (tcp.serial + 1) (pub_count tus)) := by
  constructor
  · intro tcp current tu
    constructor
    · intro h
      rw [publish_step_not_empty tcp current tu h]
      exact ⟨rfl, rfl, rfl⟩
    · intro h
      rw [publish_step_empty tcp current tu h]
      exact ⟨rfl, rfl⟩
  · intro tcp current tus
    exact run_cycles_serial tus tcp current

/-- Witness for C3 at concrete inputs: a run of three cycles — a
non-empty reset, an empty incremental cycle, a non-empty incremental
cycle — publishes exactly twice with consecutive serials 1 and 2 and
ends at serial 2. -/
theorem serial_monotonic_witness :
    ((TargetUpdate.mk ⟨[4]⟩ none).is_definitely_empty = false ∧
      (Tcp.publish_step ⟨"server", 60, 0, 0⟩ [] ⟨⟨[4]⟩, none⟩).1.serial
        = 0 + 1 ∧
      (Tcp.publish_step ⟨"server", 60, 0, 0⟩ [] ⟨⟨[4]⟩, none⟩).2.2
        = some (TargetUpdate.into_update ⟨⟨[4]⟩, none⟩ (0 + 1)) ∧
      (TargetUpdate.into_update ⟨⟨[4]⟩, none⟩ (0 + 1)).serial = 0 + 1) ∧
    ((Tcp.run_cycles ⟨"server", 60, 0, 0⟩ []
        [⟨⟨[4]⟩, none⟩, ⟨⟨[4]⟩, some ⟨[]⟩⟩,
         ⟨⟨[4, 7]⟩, some ⟨[(7, .announce)]⟩⟩]).1.serial
        = 0 + pub_count [⟨⟨[4]⟩, none⟩, ⟨⟨[4]⟩, some ⟨[]⟩⟩,
            ⟨⟨[4, 7]⟩, some ⟨[(7, .announce)]⟩⟩] ∧
      ((Tcp.run_cycles ⟨"server", 60, 0, 0⟩ []
        [⟨⟨[4]⟩, none⟩, ⟨⟨[4]⟩, some ⟨[]⟩⟩,
         ⟨⟨[4, 7]⟩, some ⟨[(7, .announce)]⟩⟩]).2.2).map Update.serial
        = List.range' (0 + 1) (pub_count [⟨⟨[4]⟩, none⟩,
            ⟨⟨[4]⟩, some ⟨[]⟩⟩,
            ⟨⟨[4, 7]⟩, some ⟨[(7, .announce)]⟩⟩])) :=
  ⟨⟨rfl,
    (serial_monotonic.1 ⟨"server", 60, 0, 0⟩ [] ⟨⟨[4]⟩, none⟩).1 rfl⟩,
   serial_monotonic.2 ⟨"server", 60, 0, 0⟩ []
     [⟨⟨[4]⟩, none⟩, ⟨⟨[4]⟩, some ⟨[]⟩⟩,
      ⟨⟨[4, 7]⟩, some ⟨[(7, .announce)]⟩⟩]⟩

/-- Helper: deliver a sequence of (action, record) events to the
accumulator through `push_vrp`, stopping at the first error, as the
protocol engine does during one update cycle. -/
def TargetUpdate.push_all (tu : TargetUpdate) :
    List (Action × Payload) → TargetUpdate × Except VrpError Unit
  | [] => (tu, .ok ())
  | (a, p) :: rest =>
    match TargetUpdate.push_vrp tu a p with
    | (tu1, .ok _) => TargetUpdate.push_all tu1 rest
    | (tu1, .error e) => (tu1, .error e)

/-- Modelled from the spec: applying one diff entry to a payload set —
an announce inserts the record, a withdraw removes it. -/
def apply_entry (s : List Payload) (e : Payload × Action) :
    List Payload :=
  match e.2 with
  | .announce => if e.1 ∈ s then s else s ++ [e.1]
  | .withdraw => s.erase e.1

/-- Modelled from the spec: applying the entries of a diff to a payload
set, in order. -/
def apply_diff (s : List Payload) (d : List (Payload × Action)) :
    List Payload :=
  d.foldl apply_entry s

/-- Helper: a successful announce in an incremental cycle appends the
record to the set-builder and the event to the diff. -/
lemma push_vrp_announce_ok (s0 : SetBuilder) (d0 : DiffBuilder)
    (p : Payload) (hp : p ∉ s0.entries) :
    TargetUpdate.push_vrp ⟨s0, some d0⟩ .announce p
      = (⟨⟨s0.entries ++ [p]⟩, some ⟨d0.entries ++ [(p, .announce)]⟩⟩,
         .ok ()) := by
  simp [TargetUpdate.push_vrp, SetBuilder.insert, hp, DiffBuilder.push]

/-- Helper: a successful withdraw in an incremental cycle erases the
record from the set-builder and appends the event to the diff. -/
lemma push_vrp_withdraw_ok (s0 : SetBuilder) (d0 : DiffBuilder)
    (p : Payload) (hp : p ∈ s0.entries) :
    TargetUpdate.push_vrp ⟨s0, some d0⟩ .withdraw p
      = (⟨⟨s0.entries.erase p⟩, some ⟨d0.entries ++ [(p, .withdraw)]⟩⟩,
         .ok ()) := by
  simp [TargetUpdate.push_vrp, SetBuilder.remove, hp, DiffBuilder.push]

/-- Helper: announcing a duplicate record in an incremental cycle is a
corruption error and leaves the accumulator unchanged. -/
lemma push_vrp_announce_dup (s0 : SetBuilder) (d0 : DiffBuilder)
    (p : Payload) (hp : p ∈ s0.entries) :
    TargetUpdate.push_vrp ⟨s0, some d0⟩ .announce p
      = (⟨s0, some d0⟩, .error .corrupt) := by
  simp [TargetUpdate.push_vrp, SetBuilder.insert, hp]

/-- Helper: withdrawing an absent record in an incremental cycle is a
corruption error and leaves the accumulator unchanged. -/
lemma push_vrp_withdraw_absent (s0 : SetBuilder) (d0 : DiffBuilder)
    (p : Payload) (hp : p ∉ s0.entries) :
    TargetUpdate.push_vrp ⟨s0, some d0⟩ .withdraw p
      = (⟨s0, some d0⟩, .error .corrupt) := by
  simp [TargetUpdate.push_vrp, SetBuilder.remove, hp]

/-- Helper: a successful `push_vrp` in an incremental cycle appends the
event to the diff and performs the corresponding operation on the
set-builder, which coincides with applying the diff entry to the set. -/
lemma push_vrp_ok_incremental (tu tu1 : TargetUpdate) (d : DiffBuilder)
    (a : Action) (p : Payload) (u : Unit)
    (hd : tu.diff = some d)
    (h : tu.push_vrp a p = (tu1, .ok u)) :
    tu1.diff = some ⟨d.entries ++ [(p, a)]⟩ ∧
    tu1.set.entries = apply_entry tu.set.entries (p, a) := by
  obtain ⟨s0, dopt⟩ := tu
  cases dopt with
  | none => simp at hd
  | some d0 =>
    have hdd : d0 = d := by simpa using hd
    subst hdd
    cases a with
    | announce =>
      by_cases hp : p ∈ s0.entries
      · rw [push_vrp_announce_dup s0 d0 p hp] at h
        simp at h
      · rw [push_vrp_announce_ok s0 d0 p hp, Prod.mk.injEq] at h
        obtain ⟨h1, -⟩ := h
        subst h1
        simp [apply_entry, hp]
    | withdraw =>
      by_cases hp : p ∈ s0.entries
      · rw [push_vrp_withdraw_ok s0 d0 p hp, Prod.mk.injEq] at h
        obtain ⟨h1, -⟩ := h
        subst h1
        simp [apply_entry]
      · rw [push_vrp_withdraw_absent s0 d0 p hp] at h
        simp at h

/-- Helper: applying a diff extended by one entry applies the entry to
the result of applying the diff. -/
lemma apply_diff_append_one (base : List Payload)
    (l : List (Payload × Action)) (x : Payload × Action) :
    apply_diff base (l ++ [x]) = apply_entry (apply_diff base l) x := by
  simp [apply_diff, List.foldl_append]

/-- Helper invariant: if the accumulator's set equals some base set
with its diff applied, then after any error-free sequence of events the
new diff is the old diff extended by exactly those events, and the set
still equals the base with the new diff applied. -/
lemma push_all_ok_inv (events : List (Action × Payload)) :
    ∀ (base : List Payload) (tu tu1 : TargetUpdate) (d : DiffBuilder),
      tu.diff = some d →
      tu.set.entries = apply_diff base d.entries →
      TargetUpdate.push_all tu events = (tu1, .ok ()) →
      ∃ d1 : DiffBuilder,
        tu1.diff = some d1 ∧
        d1.entries = d.entries ++ events.map (fun e => (e.2, e.1)) ∧
        tu1.set.entries = apply_diff base d1.entries := by
  induction events with
  | nil =>
    intro base tu tu1 d hd hset h
    simp only [TargetUpdate.push_all, Prod.mk.injEq] at h
    obtain ⟨h1, -⟩ := h
    subst h1
    exact ⟨d, hd, by simp, hset⟩
  | cons e rest ih =>
    intro base tu tu1 d hd hset h
    obtain ⟨a, p⟩ := e
    cases hpv : TargetUpdate.push_vrp tu a p with
    | mk tu2 r =>
      cases r with
      | ok u =>
        have h2 : TargetUpdate.push_all tu2 rest = (tu1, .ok ()) := by
          simpa [TargetUpdate.push_all, hpv] using h
        obtain ⟨hd2, hset2⟩ :=
          push_vrp_ok_incremental tu tu2 d a p u hd hpv
        have hset2' : tu2.set.entries
            = apply_diff base (d.entries ++ [(p, a)]) := by
          rw [apply_diff_append_one, ← hset, hset2]
        obtain ⟨d1, hd1, hent, hfin⟩ :=
          ih base tu2 tu1 ⟨d.entries ++ [(p, a)]⟩ hd2 hset2' h2
        refine ⟨d1, hd1, ?_, hfin⟩
        rw [hent]
        simp [List.append_assoc]
      | error e2 =>
        rw [TargetUpdate.push_all, hpv] at h
        simp at h

/-- Claim C1: for an incremental cycle and any sequence of events
accepted without error, the finalized payload set equals the previous
current set with each diff entry applied in order, and the finalized
diff is exactly the recorded event sequence. -/
theorem incremental_cycle_set_diff (t : Target)
    (events : List (Action × Payload)) (tu : TargetUpdate)
    (serial : Serial)
    (h : TargetUpdate.push_all (t.start false) events = (tu, .ok ())) :
    (tu.into_update serial).diff
        = some (events.map (fun e => (e.2, e.1))) ∧
    (tu.into_update serial).set
        = apply_diff t.current (events.map (fun e => (e.2, e.1))) := by
  obtain ⟨d1, hd1, hent, hfin⟩ :=
    push_all_ok_inv events t.current (t.start false) tu
      DiffBuilder.empty rfl
      (by simp [Target.start, apply_diff, DiffBuilder.empty]) h
  have hent' : d1.entries = events.map (fun e => (e.2, e.1)) := by
    simpa [DiffBuilder.empty] using hent
  constructor
  · simp [TargetUpdate.into_update, hd1, DiffBuilder.finalize, hent']
  · simp only [TargetUpdate.into_update, SetBuilder.finalize]
    rw [hfin, hent']

/-- Witness for C1 at a concrete input: starting from current set
\x7b5\x7d, the events withdraw 5 then announce 7 are accepted, the
finalized diff records exactly those two events, and the finalized set
is the previous set with the diff applied. -/
theorem incremental_cycle_set_diff_witness :
    TargetUpdate.push_all (Target.start ⟨[5], none, "u"⟩ false)
        [(.withdraw, 5), (.announce, 7)]
      = (⟨⟨[7]⟩, some ⟨[(5, .withdraw), (7, .announce)]⟩⟩, .ok ()) ∧
    ((TargetUpdate.into_update
        ⟨⟨[7]⟩, some ⟨[(5, .withdraw), (7, .announce)]⟩⟩ 3).diff
      = some [(5, .withdraw), (7, .announce)] ∧
     (TargetUpdate.into_update
        ⟨⟨[7]⟩, some ⟨[(5, .withdraw), (7, .announce)]⟩⟩ 3).set
      = apply_diff [5] [(5, .withdraw), (7, .announce)]) :=
  ⟨rfl,
   incremental_cycle_set_diff ⟨[5], none, "u"⟩
     [(.withdraw, 5), (.announce, 7)]
     ⟨⟨[7]⟩, some ⟨[(5, .withdraw), (7, .announce)]⟩⟩ 3 rfl⟩

/-- Helper: a list of timed gate status events, as delivered during a
wait or select loop. -/
def status_events (pre : List (Nat × GateStatus)) :
    List (Nat × GateEv) :=
  pre.map (fun x => (x.1, GateEv.status x.2))

/-- Helper: folding no statuses leaves the unit unchanged. -/
lemma fold_status_nil (tcp : Tcp) : tcp.fold_status [] = tcp := rfl

/-- Helper: folding a status list starts by recording its head. -/
lemma fold_status_cons (tcp : Tcp) (s : GateStatus)
    (rest : List GateStatus) :
    tcp.fold_status (s :: rest)
      = Tcp.fold_status { tcp with status := s } rest := rfl

/-- Helper: recording statuses never changes the retry interval. -/
lemma fold_status_retry (statuses : List GateStatus) :
    ∀ tcp : Tcp, (tcp.fold_status statuses).retry = tcp.retry := by
  induction statuses with
  | nil => intro tcp; rfl
  | cons s rest ih =>
    intro tcp
    rw [fold_status_cons]
    exact ih _

/-- Helper: a status event arriving before the deadline only records
the status; the wait continues against the same deadline. -/
lemma retry_wait_go_cons_status (deadline t : Nat) (s : GateStatus)
    (tcp : Tcp) (rest : List (Nat × GateEv)) (ht : t < deadline) :
    Tcp.retry_wait_go deadline tcp ((t, GateEv.status s) :: rest)
      = Tcp.retry_wait_go deadline { tcp with status := s } rest := by
  simp [Tcp.retry_wait_go, ht]

/-- Helper: a termination event arriving before the deadline ends the
wait with the termination result. -/
lemma retry_wait_go_cons_term (deadline t : Nat) (tcp : Tcp)
    (rest : List (Nat × GateEv)) (ht : t < deadline) :
    Tcp.retry_wait_go deadline tcp ((t, GateEv.term) :: rest)
      = .error .mk := by
  simp [Tcp.retry_wait_go, ht]

/-- Helper: once the deadline is reached the wait ends successfully,
whatever the gate would deliver later. -/
lemma retry_wait_go_cons_late (deadline t : Nat) (ev : GateEv)
    (tcp : Tcp) (rest : List (Nat × GateEv)) (ht : deadline ≤ t) :
    Tcp.retry_wait_go deadline tcp ((t, ev) :: rest) = .ok tcp := by
  simp [Tcp.retry_wait_go, Nat.not_lt.mpr ht]

/-- Helper: any number of status events before the deadline are folded
into the local status and the wait resumes against the same deadline. -/
lemma retry_wait_go_statuses (pre : List (Nat × GateStatus)) :
    ∀ (deadline : Nat) (tcp : Tcp) (rest : List (Nat × GateEv)),
      (∀ x ∈ pre, x.1 < deadline) →
      Tcp.retry_wait_go deadline tcp (status_events pre ++ rest)
        = Tcp.retry_wait_go deadline
            (tcp.fold_status (pre.map Prod.snd)) rest := by
  induction pre with
  | nil =>
    intro deadline tcp rest h
    simp [status_events, Tcp.fold_status]
  | cons x pre ih =>
    intro deadline tcp rest h
    obtain ⟨t, s⟩ := x
    have ht : t < deadline := h (t, s) (List.mem_cons_self _ _)
    have hev : status_events ((t, s) :: pre) ++ rest
        = (t, GateEv.status s) :: (status_events pre ++ rest) := rfl
    rw [hev, retry_wait_go_cons_status deadline t s tcp _ ht,
      List.map_cons, fold_status_cons]
    exact ih deadline { tcp with status := s } rest
      (fun y hy => h y (List.mem_cons_of_mem _ hy))

/-- Helper: a retry wait through status events only ends successfully
at the deadline with the statuses folded into local state. -/
lemma retry_wait_statuses (tcp : Tcp) (now : Nat)
    (pre : List (Nat × GateStatus))
    (hpre : ∀ x ∈ pre, x.1 < now + tcp.retry) :
    Tcp.retry_wait tcp now (status_events pre)
      = .ok (tcp.fold_status (pre.map Prod.snd)) := by
  have h := retry_wait_go_statuses pre (now + tcp.retry) tcp [] hpre
  rw [List.append_nil] at h
  exact h

/-- Claim C6: the retry wait has a fixed deadline of now plus the
configured retry interval; status updates observed during the wait only
update local status and never shorten or restart the wait; a
termination event before the deadline ends the wait with the
termination result; once the deadline is reached the wait ends
successfully and the run loop proceeds to a reconnect attempt. -/
theorem retry_wait_fixed_deadline (tcp : Tcp) (now : Nat)
    (pre : List (Nat × GateStatus))
    (hpre : ∀ x ∈ pre, x.1 < now + tcp.retry) :
    Tcp.retry_wait tcp now (status_events pre)
        = .ok (tcp.fold_status (pre.map Prod.snd)) ∧
    (∀ (t : Nat) (rest : List (Nat × GateEv)), t < now + tcp.retry →
      Tcp.retry_wait tcp now
          (status_events pre ++ (t, GateEv.term) :: rest)
        = .error .mk) ∧
    (∀ (t : Nat) (ev : GateEv) (rest : List (Nat × GateEv)),
      now + tcp.retry ≤ t →
      Tcp.retry_wait tcp now (status_events pre ++ (t, ev) :: rest)
        = .ok (tcp.fold_status (pre.map Prod.snd))) ∧
    (∀ target : Target,
      Tcp.connect_phase tcp target [] .sockErr now (status_events pre)
        = .ok (tcp.fold_status (pre.map Prod.snd), .reconnect target)) := by
  refine ⟨retry_wait_statuses tcp now pre hpre, ?_, ?_, ?_⟩
  · intro t rest ht
    rw [Tcp.retry_wait, retry_wait_go_statuses pre _ tcp _ hpre,
      retry_wait_go_cons_term _ _ _ _ ht]
  · intro t ev rest ht
    rw [Tcp.retry_wait, retry_wait_go_statuses pre _ tcp _ hpre,
      retry_wait_go_cons_late _ _ _ _ _ ht]
  · intro target
    rw [Tcp.connect_phase]
    rw [show Tcp.connect tcp target [] .sockErr = (tcp, .error target)
      from rfl]
    simp only [retry_wait_statuses tcp now pre hpre]

/-- Witness for C6 at concrete inputs: with retry interval 60 entered
at time 100, status events at 110 and 150 are folded into local status
and the wait still ends successfully; a termination at 155 terminates;
an event at 160 is beyond the deadline and the wait ends successfully;
a silent gate leads to a reconnect attempt. -/
theorem retry_wait_fixed_deadline_witness :
    (∀ x ∈ [((110 : Nat), (5 : GateStatus)), (150, 6)],
      x.1 < 100 + (Tcp.mk "server" 60 0 0).retry) ∧
    Tcp.retry_wait ⟨"server", 60, 0, 0⟩ 100
        (status_events [(110, 5), (150, 6)])
      = .ok ((Tcp.mk "server" 60 0 0).fold_status
          ([((110 : Nat), (5 : GateStatus)), (150, 6)].map Prod.snd)) ∧
    Tcp.retry_wait ⟨"server", 60, 0, 0⟩ 100
        (status_events [(110, 5), (150, 6)] ++ [(155, GateEv.term)])
      = .error .mk ∧
    Tcp.retry_wait ⟨"server", 60, 0, 0⟩ 100
        (status_events [(110, 5), (150, 6)] ++ [(160, GateEv.term)])
      = .ok ((Tcp.mk "server" 60 0 0).fold_status
          ([((110 : Nat), (5 : GateStatus)), (150, 6)].map Prod.snd)) ∧
    Tcp.connect_phase ⟨"server", 60, 0, 0⟩ (Target.new "unit") []
        .sockErr 100 (status_events [(110, 5), (150, 6)])
      = .ok ((Tcp.mk "server" 60 0 0).fold_status
          ([((110 : Nat), (5 : GateStatus)), (150, 6)].map Prod.snd),
          .reconnect (Target.new "unit")) :=
  have h := retry_wait_fixed_deadline ⟨"server", 60, 0, 0⟩ 100
    [(110, 5), (150, 6)] (by decide)
  ⟨by decide, h.1, h.2.1 155 [] (by decide), h.2.2.1 160 .term []
    (by decide), h.2.2.2 (Target.new "unit")⟩

/-- Helper: during connect, statuses won by the gate are folded into
local state and gate termination is returned as `Err(target)`, exactly
like a failed socket connect. -/
lemma connect_gateTerm (statuses : List GateStatus) :
    ∀ (tcp : Tcp) (target : Target),
      Tcp.connect tcp target statuses .gateTerm
        = (tcp.fold_status statuses, .error target) := by
  induction statuses with
  | nil => intro tcp target; rfl
  | cons s rest ih =>
    intro tcp target
    rw [fold_status_cons]
    exact ih _ _

/-- Claim C7 counterexample: if the control channel reports termination
while a connect attempt is in progress, the run loop does not return a
termination result — `connect` returns `Err(target)` exactly as for a
failed connect, the loop enters the retry wait, and with a gate that
stays silent during the wait it proceeds to another reconnect
attempt. -/
theorem connect_termination_goes_to_retry :
    Tcp.connect ⟨"server", 60, 0, 0⟩ (Target.new "unit") [] .gateTerm
      = (⟨"server", 60, 0, 0⟩, .error (Target.new "unit")) ∧
    Tcp.connect_phase ⟨"server", 60, 0, 0⟩ (Target.new "unit") []
        .gateTerm 0 []
      = .ok (⟨"server", 60, 0, 0⟩, .reconnect (Target.new "unit")) :=
  ⟨rfl, rfl⟩

/-- Claim C7 (amended): termination reported during a connect attempt
is treated as a connect failure: `connect` returns the target as an
error, the run loop enters the retry wait, and the unit terminates only
if the gate reports termination again during that wait; with a silent
gate it attempts another reconnect. -/
theorem connect_termination_amended (tcp : Tcp) (target : Target)
    (statuses : List GateStatus) (now : Nat) :
    Tcp.connect tcp target statuses .gateTerm
        = (tcp.fold_status statuses, .error target) ∧
    (∀ (t : Nat) (rest : List (Nat × GateEv)), t < now + tcp.retry →
      Tcp.connect_phase tcp target statuses .gateTerm now
          ((t, GateEv.term) :: rest)
        = .error .mk) ∧
    Tcp.connect_phase tcp target statuses .gateTerm now []
      = .ok (tcp.fold_status statuses, .reconnect target) := by
  refine ⟨connect_gateTerm statuses tcp target, ?_, ?_⟩
  · intro t rest ht
    rw [Tcp.connect_phase, connect_gateTerm statuses tcp target]
    have ht' : t < now + (tcp.fold_status statuses).retry := by
      rw [fold_status_retry]
      exact ht
    simp only [Tcp.retry_wait,
      retry_wait_go_cons_term (now + (tcp.fold_status statuses).retry)
        t (tcp.fold_status statuses) rest ht']
  · rw [Tcp.connect_phase, connect_gateTerm statuses tcp target]
    rfl

/-- Witness for C7 (amended) at concrete inputs. -/
theorem connect_termination_amended_witness :
    Tcp.connect ⟨"server", 1, 0, 0⟩ (Target.new "unit") [7] .gateTerm
        = ((Tcp.mk "server" 1 0 0).fold_status [7],
           .error (Target.new "unit")) ∧
    (0 : Nat) < 0 + (Tcp.mk "server" 1 0 0).retry ∧
    Tcp.connect_phase ⟨"server", 1, 0, 0⟩ (Target.new "unit") [7]
        .gateTerm 0 [(0, GateEv.term)]
      = .error .mk ∧
    Tcp.connect_phase ⟨"server", 1, 0, 0⟩ (Target.new "unit") [7]
        .gateTerm 0 []
      = .ok ((Tcp.mk "server" 1 0 0).fold_status [7],
             .reconnect (Target.new "unit")) :=
  have h := connect_termination_amended ⟨"server", 1, 0, 0⟩
    (Target.new "unit") [7] 0
  ⟨h.1, by decide, h.2.1 0 [] (by decide), h.2.2⟩

/-- Helper: during an update cycle, statuses won by the gate are folded
into local state, gate termination yields `Err(Terminated)`, and the
protocol engine's own result is passed through inside `Ok`. -/
lemma update_statuses (statuses : List GateStatus) :
    ∀ (tcp : Tcp) (final : UpdateResolve),
      Tcp.update tcp statuses final
        = (tcp.fold_status statuses,
           match final with
           | .gateTerm => .error .mk
           | .updErr k => .ok (.error k)
           | .updOk tu => .ok (.ok tu)) := by
  induction statuses with
  | nil =>
    intro tcp final
    cases final <;> rfl
  | cons s rest ih =>
    intro tcp final
    rw [fold_status_cons]
    exact ih _ _

/-- Claim C8 counterexample: while streaming, an unrecoverable protocol
error reported by the protocol engine (which arrives through the
engine's io error channel) leads to the disconnect/retry path, not to
termination. -/
theorem protocol_error_not_fatal :
    Tcp.stream_step ⟨"server", 60, 0, 0⟩ ⟨Target.new "unit", none⟩ []
        (.updErr .protocolError)
      = (⟨"server", 60, 0, 0⟩, ⟨Target.new "unit", none⟩,
         .disconnect) :=
  rfl

/-- Claim C8 (amended): while streaming, every error delivered through
the protocol engine's io error channel — unrecoverable protocol
errors, clean peer disconnects and transport failures alike — leads to
the disconnect/retry-wait path; the unit transitions to Terminated only
when the control channel reports termination. -/
theorem stream_errors_lead_to_retry (tcp : Tcp) (client : ClientM)
    (statuses : List GateStatus) (k : IoErrorKind) :
    (Tcp.stream_step tcp client statuses (.updErr k)).2.2
        = .disconnect ∧
    (Tcp.stream_step tcp client statuses .gateTerm).2.2
        = .terminated := by
  constructor
  · rw [Tcp.stream_step, update_statuses statuses tcp (.updErr k)]
  · rw [Tcp.stream_step, update_statuses statuses tcp .gateTerm]

end Rtr
